import Mathlib

/-!
Verification development for the Search-Tabs browser-extension popup
(`source/Popup/Popup.tsx`, latest revision).

The popup aggregates four data sources (open tabs, recently closed tabs,
history, bookmarks) into a filterable command palette.  The definitions
below are a shallow embedding of the pure logic of that component:

* `Filters` / `handleFilterClick` — the four-flag filter state machine;
* `TabItem`, `mediaTabs`, `activeTabs` — tab grouping;
* `sortTabs` and the four fetch functions — host-fetch post-processing,
  including which of them catch host errors;
* `isUrl`, `extractDomain`, `encodeURIComponent`, `handleSearch`,
  `handleUrlNavigation`, `handleKeyDown` — query handling and keyboard
  dispatch;
* the `onSelect` guards of the result items.

Host calls (`browser.*`) are external collaborators: each fetch takes the
host's reply (as an `Except`, to model promise rejection), and dispatchers
return the host call they would make as data.  JavaScript truthiness tests
on optional fields are modelled explicitly (`Option`, `0` and `""` falsy).
-/

/-! ### Data model (the TypeScript interfaces) -/

/-- `mutedInfo` payload of a tab (`mutedInfo?: { muted: boolean }`). -/
structure MutedInfo where
  muted : Bool
deriving DecidableEq, Repr

/-- The `TabItem` interface of `Popup.tsx`: optional numeric id, title and
url strings, optional icon, optional last-accessed timestamp, optional
`active`, `audible`, `mutedInfo` fields. -/
structure TabItem where
  id : Option Nat
  title : String
  url : String
  favIconUrl : Option String
  lastAccessed : Option Nat
  active : Option Bool
  audible : Option Bool
  mutedInfo : Option MutedInfo
deriving DecidableEq, Repr

/-- The `HistoryItem` interface of `Popup.tsx`. -/
structure HistoryItem where
  id : String
  url : Option String
  title : Option String
  lastVisitTime : Option Nat
  visitCount : Option Nat
  typedCount : Option Nat
deriving DecidableEq, Repr

/-- The `BookmarkItem` interface of `Popup.tsx`. -/
structure BookmarkItem where
  id : String
  url : Option String
  title : String
  dateAdded : Option Nat
deriving DecidableEq, Repr

/-! ### FilterState (`filters` React state and `handleFilterClick`) -/

/-- The four-flag filter state `{all, tab, history, bookmark}`. -/
structure Filters where
  all : Bool
  tab : Bool
  history : Bool
  bookmark : Bool
deriving DecidableEq, Repr, Fintype

/-- The argument of `handleFilterClick`:
`"all" | "tab" | "history" | "bookmark"`. -/
inductive FilterKind where
  | all
  | tab
  | history
  | bookmark
deriving DecidableEq, Repr, Fintype

/-- The initial filter state: `{all: true, tab: false, history: false,
bookmark: false}`. -/
def initialFilters : Filters :=
  { all := true, tab := false, history := false, bookmark := false }

/-- `handleFilterClick` of `Popup.tsx`: clicking `all` resets to the
all-active state; clicking a specific filter clears `all` and toggles that
flag, then re-asserts `all` when no specific flag remains selected. -/
def handleFilterClick (filter : FilterKind) (filters : Filters) : Filters :=
  match filter with
  | .all => { all := true, tab := false, history := false, bookmark := false }
  | .tab =>
      let newFilters := { filters with all := false, tab := !filters.tab }
      if !newFilters.tab && !newFilters.history && !newFilters.bookmark then
        { newFilters with all := true }
      else newFilters
  | .history =>
      let newFilters := { filters with all := false, history := !filters.history }
      if !newFilters.tab && !newFilters.history && !newFilters.bookmark then
        { newFilters with all := true }
      else newFilters
  | .bookmark =>
      let newFilters := { filters with all := false, bookmark := !filters.bookmark }
      if !newFilters.tab && !newFilters.history && !newFilters.bookmark then
        { newFilters with all := true }
      else newFilters

/-- The FilterState invariant: `all` is true iff no specific flag is true. -/
def filtersInv (f : Filters) : Bool :=
  f.all == (!f.tab && !f.history && !f.bookmark)

/-- The specific (non-`all`) flag of a filter state named by a
`FilterKind`; `specificFlag f .all` reads the `all` flag itself. -/
def specificFlag (f : Filters) : FilterKind → Bool
  | .all => f.all
  | .tab => f.tab
  | .history => f.history
  | .bookmark => f.bookmark

/-! ### Tab grouping (`mediaTabs` / `activeTabs`) -/

/-- Truthiness of `tab.audible` (missing field is falsy). -/
def tabAudible (t : TabItem) : Bool := t.audible.getD false

/-- Truthiness of `tab.mutedInfo?.muted` (missing `mutedInfo` is falsy). -/
def tabMuted (t : TabItem) : Bool := (t.mutedInfo.map MutedInfo.muted).getD false

/-- Truthiness of `tab.active`. -/
def tabActive (t : TabItem) : Bool := t.active.getD false

/-- The media-tab test used by the `mediaTabs` filter:
`tab.audible || tab.mutedInfo?.muted`. -/
def isMediaTab (t : TabItem) : Bool := tabAudible t || tabMuted t

/-- `mediaTabs = openTabs.filter((tab) => tab.audible || tab.mutedInfo?.muted)`. -/
def mediaTabs (openTabs : List TabItem) : List TabItem :=
  openTabs.filter fun tab => tabAudible tab || tabMuted tab

/-- `activeTabs = openTabs.filter((tab) => !tab.audible &&
!tab.mutedInfo?.muted && !tab.active)` — the "Opened Tabs" group. -/
def activeTabs (openTabs : List TabItem) : List TabItem :=
  openTabs.filter fun tab => !tabAudible tab && !tabMuted tab && !tabActive tab

/-! ### Fetching and sorting (the four data-source fetches) -/

/-- The sort predicate of `fetchOpenTabs` / `fetchRecentlyClosedTabs`:
the JS comparator `(a, b) => (b.lastAccessed || 0) - (a.lastAccessed || 0)`
orders `a` no later than `b` exactly when the comparator is `<= 0`, i.e.
when `(b.lastAccessed || 0) <= (a.lastAccessed || 0)` (descending by
last-accessed, missing timestamp read as 0). -/
def tabLE (a b : TabItem) : Bool :=
  b.lastAccessed.getD 0 <= a.lastAccessed.getD 0

/-- The `.sort` call of `fetchOpenTabs`: JS `Array.prototype.sort` is
stable, modelled by the stable `List.mergeSort`. -/
def sortTabs (tabs : List TabItem) : List TabItem :=
  tabs.mergeSort tabLE

/-- `fetchOpenTabs`: queries the host for the current window's tabs, sorts
them descending by last-accessed and stores them.  The host reply is an
`Except` (a promise that may reject).  This function has NO try/catch in
the source, so a rejection escapes.  Result: first component is the
argument passed to `setOpenTabs` (or `none` when it is never called),
second component is the error escaping the function (`none` when it
returns normally). -/
def fetchOpenTabs (host : Except String (List TabItem)) :
    Option (List TabItem) × Option String :=
  match host with
  | .ok tabs => (some (sortTabs tabs), none)
  | .error e => (none, some e)

/-- A recently-closed session wrapper: `session.tab` may be absent. -/
structure SessionRec where
  tab : Option TabItem
deriving DecidableEq, Repr

/-- The error message recorded when the sessions API is unavailable. -/
def sessionsUnavailableMsg : String :=
  "Cannot access recently closed tabs. Please ensure necessary permissions are granted."

/-- The error message recorded when `getRecentlyClosed` rejects. -/
def sessionsFetchErrorMsg : String := "Error fetching recently closed tabs"

/-- Outcome of `fetchRecentlyClosedTabs`: the arguments passed to
`setRecentlyClosedTabs` and `setSessionsError` (`none` when the setter is
not called), and the error escaping the function (always `none`: the whole
body is wrapped in try/catch). -/
structure ClosedFetchOutcome where
  closedTabs : Option (List TabItem)
  sessionsError : Option String
  thrown : Option String
deriving DecidableEq, Repr

/-- `fetchRecentlyClosedTabs`: when `browser.sessions` is unavailable it
records a descriptive error; otherwise it filters the sessions to those
with a `tab`, sorts them descending by last-accessed and clears the error;
a host rejection is caught, recording an error message and resetting the
closed-tabs slot to `[]`. -/
def fetchRecentlyClosedTabs (sessionsAvailable : Bool)
    (host : Except String (List SessionRec)) : ClosedFetchOutcome :=
  if !sessionsAvailable then
    { closedTabs := none, sessionsError := some sessionsUnavailableMsg, thrown := none }
  else
    match host with
    | .ok sessions =>
        { closedTabs := some ((sessions.filterMap SessionRec.tab).mergeSort tabLE)
          sessionsError := some ""
          thrown := none }
    | .error _ =>
        { closedTabs := some []
          sessionsError := some sessionsFetchErrorMsg
          thrown := none }

/-- `fetchHistoryItems`: stores the host's history-search reply; a
rejection is caught and the slot reset to `[]`.  Result: argument passed
to `setHistoryItems`, and the error escaping the function (always
`none`). -/
def fetchHistoryItems (host : Except String (List HistoryItem)) :
    Option (List HistoryItem) × Option String :=
  match host with
  | .ok items => (some items, none)
  | .error _ => (some [], none)

/-- Truthiness of `item.url` for a bookmark (`url?: string`): absent or
empty is falsy. -/
def bookmarkUrlTruthy (item : BookmarkItem) : Bool :=
  match item.url with
  | some u => !(u == "")
  | none => false

/-- `fetchBookmarkItems`: with a non-empty query it searches bookmarks,
otherwise it lists the recent ones; either way entries without a truthy
`url` are dropped; a rejection is caught and the slot reset to `[]`.
`host` is the reply of whichever bookmarks call the branch makes. -/
def fetchBookmarkItems (searchValue : String)
    (host : Except String (List BookmarkItem)) :
    Option (List BookmarkItem) × Option String :=
  if !(searchValue == "") then
    match host with
    | .ok items => (some (items.filter bookmarkUrlTruthy), none)
    | .error _ => (some [], none)
  else
    match host with
    | .ok items => (some (items.filter bookmarkUrlTruthy), none)
    | .error _ => (some [], none)

/-! ### URL-shape heuristic (`isUrl`) -/

/-- Character class `[\da-z.-]` of the `isUrl` regex (host part). -/
def hostChar (c : Char) : Bool :=
  c.isDigit || (decide (c ≥ 'a') && decide (c ≤ 'z')) || c == '.' || c == '-'

/-- Character class `[a-z.]` of the `isUrl` regex (TLD part). -/
def tldChar (c : Char) : Bool :=
  (decide (c ≥ 'a') && decide (c ≤ 'z')) || c == '.'

/-- Character class `\w = [A-Za-z0-9_]`. -/
def wordChar (c : Char) : Bool :=
  c.isAlpha || c.isDigit || c == '_'

/-- Character class `[/\w .-]` of the `isUrl` regex (path part) — note
that it contains the SPACE character. -/
def pathChar (c : Char) : Bool :=
  c == '/' || wordChar c || c == ' ' || c == '.' || c == '-'

/-- Membership of a character list in the language
`([\da-z.-]+)\.([a-z.]{2,6})([/\w .-]*)*\/?$` — the scheme-free body of
the `isUrl` regex.  `([/\w .-]*)*\/?` denotes the same language as
`[/\w .-]*` (a star of a star is a star, and `/` is in the class), so the
body holds exactly when the list splits as a non-empty host of `hostChar`s,
a literal `.`, a 2–6 character TLD of `tldChar`s, and a tail of
`pathChar`s.  The decision procedure searches all split points, which is
what the regex engine's backtracking explores. -/
def urlBodyMatch (l : List Char) : Bool :=
  (List.range l.length).any fun k =>
    match l.drop k with
    | '.' :: afterDot =>
        !((l.take k).isEmpty) && (l.take k).all hostChar &&
          ((List.range 5).any fun j =>
            decide ((afterDot.take (j + 2)).length = j + 2) &&
              (afterDot.take (j + 2)).all tldChar &&
              (afterDot.drop (j + 2)).all pathChar)
    | _ => false

/-- `isUrl` of `Popup.tsx`:
`/^(https?:\/\/)?([\da-z.-]+)\.([a-z.]{2,6})([/\w .-]*)*\/?$/.test(value)`.
The optional scheme group makes the language the union of the body
language and its `http://`- and `https://`-prefixed forms. -/
def isUrl (value : String) : Bool :=
  urlBodyMatch value.data ||
    (match value.data with
      | 'h' :: 't' :: 't' :: 'p' :: ':' :: '/' :: '/' :: rest => urlBodyMatch rest
      | _ => false) ||
    (match value.data with
      | 'h' :: 't' :: 't' :: 'p' :: 's' :: ':' :: '/' :: '/' :: rest => urlBodyMatch rest
      | _ => false)

/-! ### Domain extraction (`extractDomain`) -/

/-- JS `String.prototype.startsWith`, on the character lists. -/
def jsStartsWith (s pat : String) : Bool :=
  pat.data.isPrefixOf s.data

/-- `extractDomain` of `Popup.tsx`, parameterised by the platform URL
parser (`new URL(url).hostname`, passed as `parse`, with `none` standing
for a parse error/throw): `about:` URLs are returned verbatim without
parsing; otherwise the parsed hostname is returned, and on a parse failure
the raw input is returned.  As a Lean function it is total by
construction: every input produces a string, mirroring that the source
never lets the parse failure escape. -/
def extractDomain (parse : String → Option String) (url : String) : String :=
  if jsStartsWith url "about:" then url
  else
    match parse url with
    | some hostname => hostname
    | none => url

/-- Splits a character list at the first `:`, requiring the part before it
to be alphabetic (a scheme): returns the scheme characters and the rest. -/
def schemeSplit : List Char → Option (List Char × List Char)
  | [] => none
  | ':' :: rest => some ([], rest)
  | c :: rest =>
      if c.isAlpha then (schemeSplit rest).map fun p => (c :: p.1, p.2)
      else none

/-- Modelled from the spec: the platform URL parser used by
`extractDomain` (`new URL(url).hostname` — the spec's "standard parsing",
"hostname extracted from URL"); the parser itself is a host capability,
not repository code.  Fragment faithful to standard parsing on the inputs
of interest: `scheme://host[/...]` yields the host up to the first
delimiter, `scheme:opaque` (no `//`) yields an empty hostname, and a
string without an alphabetic scheme followed by `:` fails to parse. -/
def urlHostname (url : String) : Option String :=
  match schemeSplit url.data with
  | none => none
  | some (scheme, rest) =>
      if scheme.isEmpty then none
      else
        match rest with
        | '/' :: '/' :: hostRest =>
            some (String.mk (hostRest.takeWhile fun c =>
              !(c == '/') && !(c == '?') && !(c == '#')))
        | _ => some ""

/-! ### Search and navigation actions -/

/-- Unreserved characters of `encodeURIComponent`:
`A–Z a–z 0–9 - _ . ! ~ *` the apostrophe `( )` are left as-is
(the apostrophe is tested by code point 39). -/
def uriUnreservedChar (c : Char) : Bool :=
  c.isAlpha || c.isDigit || c == '-' || c == '_' || c == '.' ||
    c == '!' || c == '~' || c == '*' || c.toNat == 39 || c == '(' || c == ')'

/-- The UTF-8 bytes of a character (as `Nat`s below 256). -/
def utf8Bytes (c : Char) : List Nat :=
  let n := c.toNat
  if n < 128 then [n]
  else if n < 2048 then [192 + n / 64, 128 + n % 64]
  else if n < 65536 then [224 + n / 4096, 128 + (n / 64) % 64, 128 + n % 64]
  else [240 + n / 262144, 128 + (n / 4096) % 64, 128 + (n / 64) % 64, 128 + n % 64]

/-- The uppercase hexadecimal digit of a value below 16. -/
def hexDigitChar (n : Nat) : Char :=
  if n < 10 then Char.ofNat (48 + n) else Char.ofNat (55 + n)

/-- A percent-encoded byte: `%` followed by two uppercase hex digits. -/
def percentEncodeByte (b : Nat) : List Char :=
  ['%', hexDigitChar (b / 16), hexDigitChar (b % 16)]

/-- Modelled from the spec: the platform `encodeURIComponent` applied to
the query ("URL-encoded query"); it is a host/JS builtin, not repository
code.  Unreserved characters pass through; every other character is
replaced by the percent-encoding of its UTF-8 bytes. -/
def encodeURIComponent (s : String) : String :=
  String.mk (s.data.flatMap fun c =>
    if uriUnreservedChar c then [c] else (utf8Bytes c).flatMap percentEncodeByte)

/-- `handleSearch` of `Popup.tsx`: with a truthy (non-empty) query it
builds the engine's search URL around the URI-encoded query, opens a tab
there and closes the popup; with an empty query it does nothing.  `some
url` is the `browser.tabs.create({url})` call (followed by
`window.close()`); `none` means no host call and the popup stays open. -/
def handleSearch (searchEngine : String) (searchValue : String) : Option String :=
  if !(searchValue == "") then
    let searchUrl :=
      if searchEngine == "google" then
        "https://www.google.com/search?q=" ++ encodeURIComponent searchValue
      else if searchEngine == "bing" then
        "https://www.bing.com/search?q=" ++ encodeURIComponent searchValue
      else if searchEngine == "duckduckgo" then
        "https://duckduckgo.com/?q=" ++ encodeURIComponent searchValue
      else
        "https://www.google.com/search?q=" ++ encodeURIComponent searchValue
    some searchUrl
  else none

/-- The test `url.match(/^https?:\/\//)` of `handleUrlNavigation`. -/
def hasHttpScheme (url : String) : Bool :=
  jsStartsWith url "http://" || jsStartsWith url "https://"

/-- `handleUrlNavigation` of `Popup.tsx`: the URL of the tab it creates —
the input itself when it already carries an http(s) scheme, otherwise the
input prefixed with `https://`. -/
def handleUrlNavigation (url : String) : String :=
  if hasHttpScheme url then url else "https://" ++ url

/-! ### Keyboard dispatch (`handleKeyDown`) -/

/-- The fields of the DOM `KeyboardEvent` relevant to `handleKeyDown`
(the source reads `key`, `metaKey`, `ctrlKey`, `shiftKey`; `altKey` is
part of the event but never read). -/
structure KeyEvent where
  key : String
  metaKey : Bool
  ctrlKey : Bool
  shiftKey : Bool
  altKey : Bool
deriving DecidableEq, Repr

/-- Observable outcome of one `handleKeyDown` call: the URL of the
`browser.tabs.create` call it triggers (if any), the argument of the
`handleFilterClick` call it makes (if any), and whether
`e.preventDefault()` / `e.stopPropagation()` were called. -/
structure KeyDownResult where
  createdTab : Option String
  filterClicked : Option FilterKind
  prevented : Bool
  stopped : Bool
deriving DecidableEq, Repr

/-- The outcome of an unrecognized key event: nothing happens and the
event falls through to the default input behavior. -/
def noKeyAction : KeyDownResult :=
  { createdTab := none, filterClicked := none, prevented := false, stopped := false }

/-- `handleKeyDown` of `Popup.tsx`: `Enter` with ctrl/meta prevents the
default and then navigates directly when the query is URL-shaped AND shift
is held, otherwise performs a google web-search (which is a no-op on an
empty query); any other key with ctrl/meta dispatches on the key string —
`"1"`..`"4"` fully consume the event and click the corresponding filter,
anything else falls through. -/
def handleKeyDown (e : KeyEvent) (searchValue : String) : KeyDownResult :=
  if e.key == "Enter" && (e.metaKey || e.ctrlKey) then
    if isUrl searchValue && e.shiftKey then
      { createdTab := some (handleUrlNavigation searchValue)
        filterClicked := none, prevented := true, stopped := false }
    else
      { createdTab := handleSearch "google" searchValue
        filterClicked := none, prevented := true, stopped := false }
  else if e.ctrlKey || e.metaKey then
    if e.key == "1" then
      { createdTab := none, filterClicked := some .all, prevented := true, stopped := true }
    else if e.key == "2" then
      { createdTab := none, filterClicked := some .tab, prevented := true, stopped := true }
    else if e.key == "3" then
      { createdTab := none, filterClicked := some .history, prevented := true, stopped := true }
    else if e.key == "4" then
      { createdTab := none, filterClicked := some .bookmark, prevented := true, stopped := true }
    else noKeyAction
  else noKeyAction

/-- The filter state after a key event: the `handleFilterClick` call made
by `handleKeyDown` (if any) applied to the current filters. -/
def applyKeyDownFilters (e : KeyEvent) (searchValue : String) (st : Filters) : Filters :=
  match (handleKeyDown e searchValue).filterClicked with
  | some k => handleFilterClick k st
  | none => st

/-! ### Result-item selection (`onSelect` guards) -/

/-- A host call made by selecting a result item. -/
inductive HostCall where
  | switchToTab (tabId : Nat)
  | reopenTab (url : String)
deriving DecidableEq, Repr

/-- `onSelect` of an "Opened Tabs" / "Media Tabs" item:
`() => tab.id && switchToTab(tab.id)` — the JS truthiness guard skips the
call when `id` is absent (or the falsy `0`).  `none` means no host call is
made, no state changes, and the popup stays open. -/
def onSelectOpenTab (tab : TabItem) : Option HostCall :=
  match tab.id with
  | some i => if !(i == 0) then some (.switchToTab i) else none
  | none => none

/-- `onSelect` of a "Recently Closed Tabs" item:
`() => tab.url && reopenTab(tab.url)` — skipped when `url` is the falsy
empty string. -/
def onSelectClosedTab (tab : TabItem) : Option HostCall :=
  if !(tab.url == "") then some (.reopenTab tab.url) else none

/-- `onSelect` of a "History" item: `() => item.url && reopenTab(item.url)`
on an optional `url`. -/
def onSelectHistoryItem (item : HistoryItem) : Option HostCall :=
  match item.url with
  | some u => if !(u == "") then some (.reopenTab u) else none
  | none => none

/-- `onSelect` of a "Bookmarks" item: `() => item.url && reopenTab(item.url)`
on an optional `url`. -/
def onSelectBookmarkItem (item : BookmarkItem) : Option HostCall :=
  match item.url with
  | some u => if !(u == "") then some (.reopenTab u) else none
  | none => none

/-! ### Theorems -/

/-- C1: the FilterState invariant (`all` iff no specific flag) holds after
every `handleFilterClick` from any state satisfying it; selecting a
specific filter clears `all`; toggling off the last active specific filter
re-asserts `all`; toggling a specific flag twice from the all-active state
returns to the all-active state. -/
theorem handleFilterClick_inv (st : Filters) (h : filtersInv st = true) (k : FilterKind) :
    filtersInv (handleFilterClick k st) = true
    ∧ (k ≠ FilterKind.all → specificFlag st k = false →
        (handleFilterClick k st).all = false)
    ∧ (k ≠ FilterKind.all → specificFlag st k = true →
        (∀ k', k' ≠ FilterKind.all → k' ≠ k → specificFlag st k' = false) →
        (handleFilterClick k st).all = true)
    ∧ (k ≠ FilterKind.all →
        handleFilterClick k (handleFilterClick k initialFilters) = initialFilters) := by
  revert h k
  revert st
  decide

/-- Witness for C1 at the initial (all-active) state and the `tab` filter. -/
theorem handleFilterClick_inv_witness :
    filtersInv initialFilters = true
    ∧ (filtersInv (handleFilterClick FilterKind.tab initialFilters) = true
      ∧ (FilterKind.tab ≠ FilterKind.all → specificFlag initialFilters FilterKind.tab = false →
          (handleFilterClick FilterKind.tab initialFilters).all = false)
      ∧ (FilterKind.tab ≠ FilterKind.all → specificFlag initialFilters FilterKind.tab = true →
          (∀ k', k' ≠ FilterKind.all → k' ≠ FilterKind.tab →
            specificFlag initialFilters k' = false) →
          (handleFilterClick FilterKind.tab initialFilters).all = true)
      ∧ (FilterKind.tab ≠ FilterKind.all →
          handleFilterClick FilterKind.tab (handleFilterClick FilterKind.tab initialFilters) =
            initialFilters)) :=
  ⟨by decide, handleFilterClick_inv initialFilters (by decide) FilterKind.tab⟩

/-- C2: the "Opened Tabs" group contains exactly the fetched tabs that are
neither the active tab nor media tabs (audible or muted); hence it never
contains the active tab and is disjoint from `mediaTabs`. -/
theorem activeTabs_spec (openTabs : List TabItem) (t : TabItem) :
    (t ∈ activeTabs openTabs ↔
      t ∈ openTabs ∧ isMediaTab t = false ∧ tabActive t = false)
    ∧ (tabActive t = true → t ∉ activeTabs openTabs)
    ∧ (t ∈ activeTabs openTabs → t ∉ mediaTabs openTabs) := by
  have hmem : t ∈ activeTabs openTabs ↔
      t ∈ openTabs ∧ tabAudible t = false ∧ tabMuted t = false ∧ tabActive t = false := by
    simp [activeTabs, List.mem_filter]
    tauto
  have hmedia : isMediaTab t = false ↔ tabAudible t = false ∧ tabMuted t = false := by
    simp [isMediaTab]
  refine ⟨?_, ?_, ?_⟩
  · rw [hmem, hmedia]
    tauto
  · intro ha hin
    rw [hmem] at hin
    simp [hin.2.2.2] at ha
  · intro hin
    rw [hmem] at hin
    intro hmed
    rw [mediaTabs, List.mem_filter] at hmed
    rw [hin.2.1, hin.2.2.1] at hmed
    simp at hmed

/-- Witness for C2: a non-active, non-media tab is in the group; an active
tab is not. -/
theorem activeTabs_spec_witness :
    (⟨some 1, "t", "u", none, none, some true, none, none⟩ : TabItem) ∈
        activeTabs [⟨some 1, "t", "u", none, none, some true, none, none⟩] → False :=
  fun hin =>
    ((activeTabs_spec [⟨some 1, "t", "u", none, none, some true, none, none⟩]
        ⟨some 1, "t", "u", none, none, some true, none, none⟩).2.1 rfl) hin

/-- C8: `fetchOpenTabs` stores the fetched tabs sorted descending by
last-accessed timestamp (missing timestamp read as 0): the stored list is
pairwise ordered by `tabLE`, is a permutation of the fetched tabs, and the
fetch-and-sort is deterministic and idempotent. -/
theorem fetchOpenTabs_sorted (tabs : List TabItem) :
    (sortTabs tabs).Pairwise (fun a b => tabLE a b = true)
    ∧ (sortTabs tabs).Perm tabs
    ∧ sortTabs (sortTabs tabs) = sortTabs tabs
    ∧ fetchOpenTabs (Except.ok tabs) = (some (sortTabs tabs), none) := by
  have htrans : ∀ a b c : TabItem, tabLE a b → tabLE b c → tabLE a c := by
    intro a b c hab hbc
    simp only [tabLE, decide_eq_true_eq] at *
    omega
  have htotal : ∀ a b : TabItem, tabLE a b || tabLE b a := by
    intro a b
    simp only [tabLE, Bool.or_eq_true, decide_eq_true_eq]
    omega
  have hsorted := List.sorted_mergeSort htrans htotal tabs
  refine ⟨hsorted, List.mergeSort_perm tabs tabLE, ?_, rfl⟩
  exact List.mergeSort_of_sorted hsorted

/-- C9: `handleSearch` is a no-op on the empty query for every engine — no
tab-creation host call, popup stays open — and a tab is created only for a
non-empty query. -/
theorem handleSearch_empty_noop (searchEngine : String) :
    handleSearch searchEngine "" = none
    ∧ (∀ q url, handleSearch searchEngine q = some url → q ≠ "") := by
  constructor
  · simp [handleSearch]
  · intro q url hsome hq
    subst hq
    simp [handleSearch] at hsome

/-- Witness for C9 at the google engine. -/
theorem handleSearch_empty_noop_witness :
    handleSearch "google" "" = none
    ∧ (∀ q url, handleSearch "google" q = some url → q ≠ "") :=
  handleSearch_empty_noop "google"

/-- C10: selecting a result item whose record lacks the field its action
needs performs no host call: a tab item without an id does not invoke
`switchToTab`, and a closed-tab / history / bookmark item without a url
does not invoke `reopenTab` (outcome `none`: no state change, popup stays
open). -/
theorem onSelect_missing_field_noop (tab ctab : TabItem) (hitem : HistoryItem)
    (bitem : BookmarkItem) :
    (tab.id = none → onSelectOpenTab tab = none)
    ∧ (ctab.url = "" → onSelectClosedTab ctab = none)
    ∧ (hitem.url = none → onSelectHistoryItem hitem = none)
    ∧ (bitem.url = none → onSelectBookmarkItem bitem = none) := by
  refine ⟨?_, ?_, ?_, ?_⟩ <;> intro h <;>
    simp [onSelectOpenTab, onSelectClosedTab, onSelectHistoryItem, onSelectBookmarkItem, h]

/-- Witness for C10 on concrete field-less records. -/
theorem onSelect_missing_field_noop_witness :
    onSelectOpenTab ⟨none, "t", "u", none, none, none, none, none⟩ = none
    ∧ onSelectClosedTab ⟨some 1, "t", "", none, none, none, none, none⟩ = none
    ∧ onSelectHistoryItem ⟨"1", none, none, none, none, none⟩ = none
    ∧ onSelectBookmarkItem ⟨"1", none, "t", none⟩ = none := by
  have h := onSelect_missing_field_noop ⟨none, "t", "u", none, none, none, none, none⟩
      ⟨some 1, "t", "", none, none, none, none, none⟩ ⟨"1", none, none, none, none, none⟩
      ⟨"1", none, "t", none⟩
  exact ⟨h.1 rfl, h.2.1 rfl, h.2.2.1 rfl, h.2.2.2 rfl⟩

/-- C3 counterexample: a host failure in `fetchOpenTabs` is NOT caught —
the open-tabs slot is not reset to `[]` (no setter call at all) and the
error escapes the function, contradicting the claim that all four fetches
catch locally. -/
theorem fetchOpenTabs_error_cex :
    fetchOpenTabs (Except.error "boom") = (none, some "boom")
    ∧ (fetchOpenTabs (Except.error "boom")).1 ≠ some []
    ∧ (fetchOpenTabs (Except.error "boom")).2 ≠ none :=
  ⟨rfl, by decide, by decide⟩

/-- C3 (amended): the closed-tabs, history and bookmarks fetches catch a
host failure locally — resetting their slot to `[]` (closed tabs also
record an error message) and letting nothing escape — while
`fetchOpenTabs` has no try/catch: its host failure escapes and its state
slot is left untouched. -/
theorem fetch_error_handling (e : String) (q : String) :
    fetchHistoryItems (Except.error e) = (some [], none)
    ∧ fetchBookmarkItems q (Except.error e) = (some [], none)
    ∧ fetchRecentlyClosedTabs true (Except.error e) =
        { closedTabs := some []
          sessionsError := some sessionsFetchErrorMsg
          thrown := none }
    ∧ fetchOpenTabs (Except.error e) = (none, some e) := by
  refine ⟨rfl, ?_, rfl, rfl⟩
  unfold fetchBookmarkItems
  split <;> rfl

/-- C4: `Ctrl/Cmd+Enter` without Shift on a non-empty query creates a tab
at the google search URL around the URI-component-encoded query regardless
of URL shape; `Ctrl/Cmd+Shift+Enter` on a URL-shaped query creates a tab
at the query itself, `https://`-prefixed when it lacks an http(s) scheme;
and the encoding of `https://example.com` is `https%3A%2F%2Fexample.com`. -/
theorem ctrlEnter_search_or_navigate (q : String) (e : KeyEvent)
    (hq : q ≠ "") (hk : e.key = "Enter") (hcm : (e.metaKey || e.ctrlKey) = true) :
    (e.shiftKey = false →
      (handleKeyDown e q).createdTab =
        some ("https://www.google.com/search?q=" ++ encodeURIComponent q))
    ∧ (e.shiftKey = true → isUrl q = true →
      (handleKeyDown e q).createdTab = some (handleUrlNavigation q))
    ∧ (hasHttpScheme q = false → handleUrlNavigation q = "https://" ++ q)
    ∧ (hasHttpScheme q = true → handleUrlNavigation q = q)
    ∧ encodeURIComponent "https://example.com" = "https%3A%2F%2Fexample.com" := by
  refine ⟨?_, ?_, ?_, ?_, by decide⟩
  · intro hshift
    simp [handleKeyDown, hk, hcm, hshift, handleSearch, hq]
  · intro hshift hurl
    simp [handleKeyDown, hk, hcm, hshift, hurl]
  · intro hns
    simp [handleUrlNavigation, hns]
  · intro hs
    simp [handleUrlNavigation, hs]

/-- Witness for C4 at the spec's scenario query and a concrete
Ctrl+Enter event. -/
theorem ctrlEnter_search_or_navigate_witness :
    ("https://example.com" : String) ≠ ""
    ∧ ((KeyEvent.mk "Enter" false true false false).key = "Enter")
    ∧ (((KeyEvent.mk "Enter" false true false false).metaKey ||
        (KeyEvent.mk "Enter" false true false false).ctrlKey) = true)
    ∧ (((KeyEvent.mk "Enter" false true false false).shiftKey = false →
        (handleKeyDown (KeyEvent.mk "Enter" false true false false)
            "https://example.com").createdTab =
          some ("https://www.google.com/search?q=" ++
            encodeURIComponent "https://example.com"))
      ∧ ((KeyEvent.mk "Enter" false true false false).shiftKey = true →
          isUrl "https://example.com" = true →
          (handleKeyDown (KeyEvent.mk "Enter" false true false false)
              "https://example.com").createdTab =
            some (handleUrlNavigation "https://example.com"))
      ∧ (hasHttpScheme "https://example.com" = false →
          handleUrlNavigation "https://example.com" = "https://" ++ "https://example.com")
      ∧ (hasHttpScheme "https://example.com" = true →
          handleUrlNavigation "https://example.com" = "https://example.com")
      ∧ encodeURIComponent "https://example.com" = "https%3A%2F%2Fexample.com") :=
  ⟨by decide, rfl, rfl,
    ctrlEnter_search_or_navigate "https://example.com"
      (KeyEvent.mk "Enter" false true false false) (by decide) rfl rfl⟩

/-- C7 counterexample: a chord with ADDITIONAL modifiers held
(Ctrl+Shift+Alt with key string `"1"`) still clicks the filter and
consumes the event — the handler never inspects `shiftKey`/`altKey` in the
digit branch, contradicting "chords with additional modifiers do not
toggle a filter". -/
theorem ctrlDigit_modifiers_cex :
    (KeyEvent.mk "1" false true true true).shiftKey = true
    ∧ (KeyEvent.mk "1" false true true true).altKey = true
    ∧ handleKeyDown (KeyEvent.mk "1" false true true true) "" =
        { createdTab := none, filterClicked := some FilterKind.all
          prevented := true, stopped := true } := by
  refine ⟨rfl, rfl, ?_⟩
  decide

/-- C7 (amended): under Ctrl/Cmd, a key event whose key string is `"1"`,
`"2"`, `"3"` or `"4"` clicks the filter `all`, `tab`, `history` or
`bookmark` respectively and fully consumes the event (default prevented
and propagation stopped) — regardless of any further modifiers, which the
handler never reads — with `"1"` resetting to the all-active state and
`"2"`–`"4"` toggling their flag; any other non-Enter key falls through
unconsumed to default input behavior. -/
theorem ctrlDigit_filter_dispatch (e : KeyEvent) (q : String) (st : Filters)
    (hcm : (e.ctrlKey || e.metaKey) = true) (hne : e.key ≠ "Enter") :
    (e.key = "1" →
      handleKeyDown e q =
        { createdTab := none, filterClicked := some FilterKind.all
          prevented := true, stopped := true }
      ∧ applyKeyDownFilters e q st = initialFilters)
    ∧ (e.key = "2" →
      handleKeyDown e q =
        { createdTab := none, filterClicked := some FilterKind.tab
          prevented := true, stopped := true }
      ∧ (applyKeyDownFilters e q st).tab = !st.tab)
    ∧ (e.key = "3" →
      handleKeyDown e q =
        { createdTab := none, filterClicked := some FilterKind.history
          prevented := true, stopped := true }
      ∧ (applyKeyDownFilters e q st).history = !st.history)
    ∧ (e.key = "4" →
      handleKeyDown e q =
        { createdTab := none, filterClicked := some FilterKind.bookmark
          prevented := true, stopped := true }
      ∧ (applyKeyDownFilters e q st).bookmark = !st.bookmark)
    ∧ (e.key ≠ "1" → e.key ≠ "2" → e.key ≠ "3" → e.key ≠ "4" →
        handleKeyDown e q = noKeyAction) := by
  refine ⟨?_, ?_, ?_, ?_, ?_⟩
  · intro hk
    have hhk : handleKeyDown e q =
        { createdTab := none, filterClicked := some FilterKind.all
          prevented := true, stopped := true } := by
      simp [handleKeyDown, hk, hcm]
    refine ⟨hhk, ?_⟩
    simp [applyKeyDownFilters, hhk, handleFilterClick, initialFilters]
  · intro hk
    have hhk : handleKeyDown e q =
        { createdTab := none, filterClicked := some FilterKind.tab
          prevented := true, stopped := true } := by
      simp [handleKeyDown, hk, hcm]
    refine ⟨hhk, ?_⟩
    simp only [applyKeyDownFilters, hhk]
    simp [handleFilterClick]
    split <;> rfl
  · intro hk
    have hhk : handleKeyDown e q =
        { createdTab := none, filterClicked := some FilterKind.history
          prevented := true, stopped := true } := by
      simp [handleKeyDown, hk, hcm]
    refine ⟨hhk, ?_⟩
    simp only [applyKeyDownFilters, hhk]
    simp [handleFilterClick]
    split <;> rfl
  · intro hk
    have hhk : handleKeyDown e q =
        { createdTab := none, filterClicked := some FilterKind.bookmark
          prevented := true, stopped := true } := by
      simp [handleKeyDown, hk, hcm]
    refine ⟨hhk, ?_⟩
    simp only [applyKeyDownFilters, hhk]
    simp [handleFilterClick]
    split <;> rfl
  · intro h1 h2 h3 h4
    simp [handleKeyDown, hcm, hne, h1, h2, h3, h4, noKeyAction]

/-- Witness for C7 at a concrete plain Ctrl+2 event. -/
theorem ctrlDigit_filter_dispatch_witness :
    ((KeyEvent.mk "2" false true false false).ctrlKey ||
      (KeyEvent.mk "2" false true false false).metaKey) = true
    ∧ (KeyEvent.mk "2" false true false false).key ≠ "Enter"
    ∧ (((KeyEvent.mk "2" false true false false).key = "2" →
        handleKeyDown (KeyEvent.mk "2" false true false false) "" =
          { createdTab := none, filterClicked := some FilterKind.tab
            prevented := true, stopped := true }
        ∧ (applyKeyDownFilters (KeyEvent.mk "2" false true false false) ""
            initialFilters).tab = !initialFilters.tab)) :=
  ⟨rfl, by decide,
    (ctrlDigit_filter_dispatch (KeyEvent.mk "2" false true false false) "" initialFilters
      rfl (by decide)).2.1⟩

/-- C6 counterexample: `ftp://example.com` begins with a non-http scheme,
yet `extractDomain` (over the platform parser) displays the PARSED
hostname `example.com`, not the URL or its scheme prefix verbatim. -/
theorem extractDomain_nonHttp_cex :
    extractDomain urlHostname "ftp://example.com" = "example.com"
    ∧ ("example.com" : String) ≠ "ftp://example.com"
    ∧ ("example.com" : String) ≠ "ftp://"
    ∧ ("example.com" : String) ≠ "ftp:" := by
  refine ⟨by decide, by decide, by decide, by decide⟩

/-- C6 (amended): `extractDomain` is total by construction (it is a plain
function of the parse result); a URL failing the platform parse is
returned unchanged; an `about:`-scheme URL is returned verbatim without
parsing; and any other URL that parses displays the parsed hostname
(including for non-http schemes). -/
theorem extractDomain_amended (parse : String → Option String) (url : String) :
    (jsStartsWith url "about:" = true → extractDomain parse url = url)
    ∧ (jsStartsWith url "about:" = false → parse url = none →
        extractDomain parse url = url)
    ∧ (∀ h, jsStartsWith url "about:" = false → parse url = some h →
        extractDomain parse url = h) := by
  refine ⟨?_, ?_, ?_⟩
  · intro ha
    simp [extractDomain, ha]
  · intro ha hp
    simp [extractDomain, ha, hp]
  · intro h ha hp
    simp [extractDomain, ha, hp]

/-- Witness for C6 at the platform-parser model and concrete URLs. -/
theorem extractDomain_amended_witness :
    jsStartsWith "no spaces here?" "about:" = false
    ∧ urlHostname "no spaces here?" = none
    ∧ extractDomain urlHostname "no spaces here?" = "no spaces here?" :=
  ⟨by decide, by decide,
    (extractDomain_amended urlHostname "no spaces here?").2.1 (by decide) (by decide)⟩

/-- A character list all of whose members satisfy a class that rejects the
space contains no space. -/
theorem space_not_mem {p : Char → Bool} {l : List Char}
    (hall : l.all p = true) (hp : p ' ' = false) : ' ' ∉ l := by
  intro hmem
  rw [List.all_eq_true] at hall
  have hsp := hall _ hmem
  rw [hp] at hsp
  exact Bool.noConfusion hsp

/-- Any list accepted by the scheme-free body of the `isUrl` pattern
splits into a non-empty host of `hostChar`s, a literal dot, a 2–6
character TLD of `tldChar`s and a tail of `pathChar`s. -/
theorem urlBodyMatch_decomp {l : List Char} (h : urlBodyMatch l = true) :
    ∃ host tld path : List Char,
      l = host ++ '.' :: (tld ++ path)
      ∧ host ≠ []
      ∧ host.all hostChar = true
      ∧ 2 ≤ tld.length ∧ tld.length ≤ 6
      ∧ tld.all tldChar = true
      ∧ path.all pathChar = true := by
  unfold urlBodyMatch at h
  rw [List.any_eq_true] at h
  obtain ⟨k, _, hmatch⟩ := h
  split at hmatch
  case h_2 => exact Bool.noConfusion hmatch
  case h_1 afterDot heq =>
    rw [Bool.and_eq_true, Bool.and_eq_true] at hmatch
    obtain ⟨⟨hne, hhost⟩, hany⟩ := hmatch
    rw [List.any_eq_true] at hany
    obtain ⟨j, hj, hcond⟩ := hany
    rw [Bool.and_eq_true, Bool.and_eq_true] at hcond
    obtain ⟨⟨hlen, htld⟩, hpath⟩ := hcond
    have hlen' : (afterDot.take (j + 2)).length = j + 2 := of_decide_eq_true hlen
    have hjlt : j < 5 := List.mem_range.mp hj
    refine ⟨l.take k, afterDot.take (j + 2), afterDot.drop (j + 2), ?_, ?_, hhost,
      ?_, ?_, htld, hpath⟩
    · conv_lhs => rw [← List.take_append_drop k l]
      rw [heq, List.take_append_drop]
    · intro hempty
      rw [hempty] at hne
      exact Bool.noConfusion hne
    · omega
    · omega

/-- C5 counterexample: `"example.com/a b"` contains a space yet `isUrl`
classifies it as URL-shaped — the path class `[/\w .-]` of the pattern
contains the space character. -/
theorem isUrl_space_cex :
    isUrl "example.com/a b" = true
    ∧ "example.com/a b".data.contains ' ' = true := by
  refine ⟨by decide, by decide⟩

/-- C5 (amended): `isUrl` rejects every query lacking a dot-separated
TLD-like segment, and accepts a space only in the trailing path portion:
every accepted query splits into an optional `http://`/`https://` scheme,
a non-empty space-free host, a dot, a 2–6 character space-free TLD and a
path — the one segment whose class admits the space. -/
theorem isUrl_amended (s : String) (h : isUrl s = true) :
    ∃ pre host tld path : List Char,
      s.data = pre ++ (host ++ '.' :: (tld ++ path))
      ∧ (pre = [] ∨ pre = "http://".data ∨ pre = "https://".data)
      ∧ host ≠ []
      ∧ host.all hostChar = true
      ∧ 2 ≤ tld.length ∧ tld.length ≤ 6
      ∧ tld.all tldChar = true
      ∧ path.all pathChar = true
      ∧ ' ' ∉ pre ∧ ' ' ∉ host ∧ ' ' ∉ tld := by
  have hmain : ∀ pre rest : List Char, urlBodyMatch rest = true →
      (pre = [] ∨ pre = "http://".data ∨ pre = "https://".data) →
      ' ' ∉ pre → s.data = pre ++ rest →
      ∃ pre' host tld path : List Char,
        s.data = pre' ++ (host ++ '.' :: (tld ++ path))
        ∧ (pre' = [] ∨ pre' = "http://".data ∨ pre' = "https://".data)
        ∧ host ≠ []
        ∧ host.all hostChar = true
        ∧ 2 ≤ tld.length ∧ tld.length ≤ 6
        ∧ tld.all tldChar = true
        ∧ path.all pathChar = true
        ∧ ' ' ∉ pre' ∧ ' ' ∉ host ∧ ' ' ∉ tld := by
    intro pre rest hb hpre hsp hsplit
    obtain ⟨host, tld, path, hEq, hne, hhost, h2, h6, htld, hpath⟩ := urlBodyMatch_decomp hb
    exact ⟨pre, host, tld, path, by rw [hsplit, hEq], hpre, hne, hhost, h2, h6, htld,
      hpath, hsp, space_not_mem hhost (by decide), space_not_mem htld (by decide)⟩
  unfold isUrl at h
  rw [Bool.or_eq_true, Bool.or_eq_true] at h
  rcases h with (h | h) | h
  · exact hmain [] s.data h (Or.inl rfl) (by simp) rfl
  · split at h
    case h_1 rest heq =>
      exact hmain "http://".data rest h (Or.inr (Or.inl rfl)) (by decide)
        (by rw [heq]; rfl)
    case h_2 => exact Bool.noConfusion h
  · split at h
    case h_1 rest heq =>
      exact hmain "https://".data rest h (Or.inr (Or.inr rfl)) (by decide)
        (by rw [heq]; rfl)
    case h_2 => exact Bool.noConfusion h

/-- Witness for C5 at the query `"a.com"`. -/
theorem isUrl_amended_witness :
    isUrl "a.com" = true
    ∧ ∃ pre host tld path : List Char,
        "a.com".data = pre ++ (host ++ '.' :: (tld ++ path))
        ∧ (pre = [] ∨ pre = "http://".data ∨ pre = "https://".data)
        ∧ host ≠ []
        ∧ host.all hostChar = true
        ∧ 2 ≤ tld.length ∧ tld.length ≤ 6
        ∧ tld.all tldChar = true
        ∧ path.all pathChar = true
        ∧ ' ' ∉ pre ∧ ' ' ∉ host ∧ ' ' ∉ tld :=
  ⟨by decide, isUrl_amended "a.com" (by decide)⟩
